import Mathlib

/-!
Verification of the alias resolver (src/src/leap/mx/alias_resolver.py): a shallow
embedding of the status code registry, the protocol session handlers, and the
resolver factory, together with theorems settling the specification claims.
Python values that matter to the claims are embedded explicitly: the dynamically
typed status code argument becomes `PyVal`, Python exceptions become `PyExc`, and
each handler returns an `Outcome` recording the response lines it writes, the
factory calls it issues, and the exceptions it raises or loses.
-/

/-- A Python value passed as the status code argument: None, a str, or an int. -/
inductive PyVal where
  | pyNone
  | pyStr (s : String)
  | pyInt (n : Int)
deriving DecidableEq

/-- The Python exceptions that can arise on the code paths the claims touch. -/
inductive PyExc where
  | typeError (msg : String)
  | keyError (key : String)
  | attributeError (name : String)
  | databaseNotConnected (msg : String)
  | notImplemented
deriving DecidableEq

/-- Result of StatusCodes.get: the Python function returns None when its argument
is falsy, returns a pair (optional code, message) otherwise, or raises KeyError
when a known name is given in non canonical case. -/
inductive GetOut where
  | retNone
  | pair (code : Option Int) (msg : String)
  | keyErr (k : String)
deriving DecidableEq

/-- Model of Python str.upper for the ASCII names used by the registry. -/
def pyUpper (s : String) : String := String.mk (s.data.map Char.toUpper)

namespace StatusCodes

/-- Class attribute OK of StatusCodes (alias_resolver.py line 98). -/
def OK : String := "OK Others might say \x27HELLA AWESOME\x27...but we\x27re not convinced."

/-- Class attribute RETRY of StatusCodes (line 99). -/
def RETRY : String := "RETRY Server is busy plotting revolution; requests might take a while."

/-- Class attribute BAD of StatusCodes (line 100). -/
def BAD : String := "BAD bad Leroy Brown, baddest man in the whole...er. Malformed request."

/-- Class attribute NOKEY of StatusCodes (line 101). -/
def NOKEY : String := "NOKEY Couldn\x27t find your keys, sorry. Did you check in the sofa?"

/-- Class attribute DEFER of StatusCodes (line 102). -/
def DEFER : String := "DEFER_IF_LOCAL xxx fill me in"

/-- Class attribute DENY of StatusCodes (line 103). -/
def DENY : String := "DENY no gurlz aloud in teh tree house."

/-- Class attribute FAIL of StatusCodes (line 104). -/
def FAIL : String := "FAIL this belongs on the failblog"

/-- The SMTPCodes dict (lines 106-112): numeric code text to message. -/
def SMTPCodes : List (String × String) :=
  [("200", OK), ("400", RETRY), ("500", BAD), ("550", NOKEY),
   ("552", DEFER), ("553", DENY), ("554", FAIL)]

/-- The SMTPStrings dict (lines 114-120): name to numeric code. -/
def SMTPStrings : List (String × Int) :=
  [("OK", 200), ("RETRY", 400), ("BAD", 500), ("NOKEY", 550),
   ("DEFER", 552), ("DENY", 553), ("FAIL", 554)]

/-- Model of getattr(self, name, empty string) on a StatusCodes instance for the
seven message attributes; any other attribute name yields the default. -/
def classAttr : String → String
  | "OK" => OK
  | "RETRY" => RETRY
  | "BAD" => BAD
  | "NOKEY" => NOKEY
  | "DEFER" => DEFER
  | "DENY" => DENY
  | "FAIL" => FAIL
  | _ => ""

/-- Translated from StatusCodes.get (lines 131-160). A falsy argument (None,
empty str, int 0) falls off the end and returns None. A truthy str whose upper
case form is a known name indexes SMTPStrings with the ORIGINAL string, raising
KeyError unless the string is already canonical; an unknown str returns the pair
(500, FAIL). A truthy int is looked up in SMTPCodes, skipping the key 500 by the
explicit test in the loop; when nothing matches the function logs the NOKEY text
and returns the pair (None, empty string). -/
def get : PyVal → GetOut
  | .pyNone => .retNone
  | .pyStr s =>
    if s = "" then .retNone
    else if (SMTPStrings.find? fun q => q.1 == pyUpper s).isSome then
      match SMTPStrings.find? fun q => q.1 == s with
      | some q => .pair (some q.2) (classAttr (pyUpper s))
      | none => .keyErr s
    else .pair (some 500) FAIL
  | .pyInt n =>
    if n = 0 then .retNone
    else
      match SMTPCodes.find? fun q => q.1 == toString n && q.1 != "500" with
      | some q => .pair (some n) q.2
      | none => .pair none ""

end StatusCodes

/-- Model of the Python format string for sendCode, applied to an int:
zero pad the digits to width three, keeping the sign in front. -/
def fmt3d (n : Int) : String :=
  let digits := toString n.natAbs
  let padded :=
    if digits.length < 3 then String.mk (List.replicate (3 - digits.length) '0') ++ digits
    else digits
  if n < 0 then "-" ++ padded else padded

/-- Effects of one call to sendCode: the lines written on the transport, the
exception escaping the call if any, and the registry value computed for the
discarded local msg (None when the registry lookup itself raised). -/
structure SendOut where
  lines : List String
  exc : Option PyExc
  registry : Option GetOut
deriving DecidableEq

/-- Translated from AliasResolver.sendCode (lines 191-207). A non int code fails
the assertion, which is caught and answered with the literal internal server
error line, after which execution continues. The local msg is bound to the
registry pair; when a message argument is present the statement msg plus string
raises TypeError, because msg is a tuple (or None), never a str, so the final
sendLine is not reached. Only a call with an int code and no message reaches
sendLine, writing the formatted code, one space, and the empty string. -/
def sendCode (code : PyVal) (message : Option String) : SendOut :=
  let pre : List String :=
    match code with
    | .pyInt _ => []
    | _ => ["500 internal server error: status code must be type int"]
  match StatusCodes.get code with
  | .keyErr k => { lines := pre, exc := some (.keyError k), registry := none }
  | msg =>
    match message with
    | some _ =>
      { lines := pre,
        exc := some (.typeError "can only concatenate tuple (not \x22str\x22) to tuple"),
        registry := some msg }
    | none =>
      match code with
      | .pyInt n => { lines := pre ++ [fmt3d n ++ " "], exc := none, registry := some msg }
      | _ =>
        { lines := pre,
          exc := some (.typeError "%d format: a number is required"),
          registry := some msg }

/-- Payload string of an exception, as used for the failure message that the
base class passes back into sendCode. -/
def errorMessage : PyExc → String
  | .typeError m => m
  | .keyError k => k
  | .attributeError n => n
  | .databaseNotConnected m => m
  | .notImplemented => "NotImplemented"

/-- Modelled from the spec: the percent encoding applied to a reply value so the
response stays single line safe (section 6); the exact alphabet is immaterial to
every claim because a sendCode call carrying a message never reaches sendLine. -/
def quote (s : String) : String :=
  String.join (s.data.map fun c =>
    if c = ' ' then "%20" else if c = '%' then "%25"
    else if c = '\n' then "%0A" else String.singleton c)

/-- Modelled from the spec: the success continuation of the base class for a
completed factory query (not part of src); per section 4.2 a value is answered
with OK 200 and the encoded value, absence with the not found code and no
message, both through the sendCode of this session. -/
def cbGot (v : Option String) : SendOut :=
  match v with
  | none => sendCode (.pyInt 550) none
  | some value => sendCode (.pyInt 200) (some (quote value))

/-- Modelled from the spec: the failure continuation of the base class (not part
of src); per sections 4.2 and 7 a failed backend call is answered with RETRY 400,
the failure message being passed to the sendCode of this session. -/
def cbNot (e : PyExc) : SendOut :=
  sendCode (.pyInt 400) (some (errorMessage e))

/-- Modelled from the spec: the Backend Adapter interface of section 4.4; only
the asynchronous query by email or alias matters to the claims, absence being a
normal outcome. -/
structure Backend where
  queryByEmailOrAlias : String → Option String

/-- The factory state the claims depend on: the database connected flag set by
the connection callback, and the shared backend handle (lines 341-349). -/
structure AliasResolverFactory where
  database_connected : Bool
  couch : Backend

/-- Translated from AliasResolverFactory.get (lines 392-402): when the flag is
set, delegate to the backend query and return its result; otherwise raise
DatabaseNotConnected with the documented message. -/
def AliasResolverFactory.get (f : AliasResolverFactory) (key : String) :
    Except PyExc (Option String) :=
  if f.database_connected then .ok (f.couch.queryByEmailOrAlias key)
  else .error (.databaseNotConnected "Must be connected to a database.")

/-- Translated from AliasResolverFactory.put (lines 404-406): the body is a bare
raise of NotImplemented, for every argument. -/
def AliasResolverFactory.put (_f : AliasResolverFactory) (_key _value : String) :
    Except PyExc Unit :=
  .error PyExc.notImplemented

/-- The whitespace class of Python str.split with a None separator. -/
def pyIsSpace (c : Char) : Bool :=
  c = ' ' || c = '\t' || c = '\n' || c = '\r' || c = '\x0b' || c = '\x0c'

/-- Drop the leading whitespace run. -/
def dropWS : List Char → List Char
  | [] => []
  | c :: cs => if pyIsSpace c then dropWS cs else c :: cs

/-- Split off the leading token: the characters up to the first whitespace, and
the rest including that whitespace. -/
def takeTok : List Char → List Char × List Char
  | [] => ([], [])
  | c :: cs =>
    if pyIsSpace c then ([], c :: cs)
    else
      let p := takeTok cs
      (c :: p.1, p.2)

/-- Model of Python s.split(None, 1): skip leading whitespace; if nothing is
left the result is empty; otherwise take the first token, skip the following
whitespace run, and return the token alone or the token and the (non empty)
remainder, which keeps its internal and trailing whitespace. -/
def pySplitNone1 (s : String) : List String :=
  match dropWS s.data with
  | [] => []
  | c :: cs =>
    match dropWS (takeTok (c :: cs)).2 with
    | [] => [String.mk (takeTok (c :: cs)).1]
    | r :: rs => [String.mk (takeTok (c :: cs)).1, String.mk (r :: rs)]

/-- Observable effects of handling one request: response lines written, factory
get calls issued, factory put calls issued, failures captured by an errback or
an unobserved deferred (so they can never produce a reply), and the exception
escaping the handler synchronously, if any. -/
structure Outcome where
  lines : List String
  gets : List String
  puts : List (String × String)
  lost : List PyExc
  raised : Option PyExc
deriving DecidableEq

/-- Effects of a sendCode call made directly in a handler body: an exception
escapes the handler. -/
def ofSend (s : SendOut) : Outcome :=
  { lines := s.lines, gets := [], puts := [], lost := [], raised := s.exc }

/-- Effects of a sendCode call made inside a deferred callback whose failures
are absorbed by the trailing log errback: an exception is lost, not raised. -/
def ofSendAbsorbed (s : SendOut) (g : List String) : Outcome :=
  { lines := s.lines, gets := g, puts := [], lost := s.exc.toList, raised := none }

/-- Translated from AliasResolver.do_get (lines 209-217). A None key is answered
by sendCode(500) at once, with no factory call. Otherwise maybeDeferred invokes
factory get: a result runs the success continuation, a raised exception runs the
failure continuation, and any exception inside those continuations is absorbed
by the final log errback. -/
def do_get (f : AliasResolverFactory) (key : Option String) : Outcome :=
  match key with
  | none => ofSend (sendCode (.pyInt 500) none)
  | some k =>
    match AliasResolverFactory.get f k with
    | .ok v => ofSendAbsorbed (cbGot v) [k]
    | .error e => ofSendAbsorbed (cbNot e) [k]

/-- Translated from AliasResolver.do_put (lines 219-242). A None argument or an
argument whose split(None, 1) does not unpack into two parts is answered by
sendCode(500). With a key and value the generator evaluates self.do_query,
an attribute defined neither on AliasResolver nor on the base protocol class,
so AttributeError is raised inside the inlineCallbacks generator; the failure is
captured by the returned deferred, which the caller discards, so nothing is ever
written and neither the existence check nor factory.put is reached. -/
def do_put (_f : AliasResolverFactory) (arg : Option String) : Outcome :=
  match arg with
  | none => ofSend (sendCode (.pyInt 500) none)
  | some s =>
    match pySplitNone1 s with
    | [_, _] =>
      { lines := [], gets := [], puts := [],
        lost := [PyExc.attributeError "do_query"], raised := none }
    | _ => ofSend (sendCode (.pyInt 500) none)

/-- Translated from AliasResolver.do_delete (lines 244-252): the body is a bare
raise of NotImplemented. The decorated function contains no yield, so it is not
a generator and the exception escapes the call synchronously, unhandled by any
code in src. -/
def do_delete (_f : AliasResolverFactory) (_key : Option String) : Outcome :=
  { lines := [], gets := [], puts := [], lost := [], raised := some PyExc.notImplemented }

/-- Modelled from the spec: the verb dispatch of the base line protocol class
(not part of src); requests of shape verb space argument are dispatched to the
matching handler of the session. A verb with no handler in src is left to the
external base class, represented here as the escaping attribute lookup. -/
def dispatch (f : AliasResolverFactory) (verb : String) (arg : Option String) : Outcome :=
  if verb = "get" then do_get f arg
  else if verb = "put" then do_put f arg
  else if verb = "delete" then do_delete f arg
  else
    { lines := [], gets := [], puts := [], lost := [],
      raised := some (PyExc.attributeError ("do_" ++ verb)) }

/-- Modelled from the spec: the request framing of the base line protocol class
(not part of src); the line is split once on whitespace, a line that does not
split into two parts is treated as a bare verb with a None argument, matching
the None checks of the handlers in src. -/
def handleLine (f : AliasResolverFactory) (line : String) : Outcome :=
  match pySplitNone1 line with
  | [verb, arg] => dispatch f verb (some arg)
  | _ => dispatch f line none

/-- The connection lifecycle state of the factory: the boolean flag that the
source keeps (lines 345, 377-378) and the number of connection attempts the
factory has constructed so far, which identifies each attempt. -/
structure FactoryConn where
  database_connected : Bool
  attempts : Nat
deriving DecidableEq

/-- What a call to connectDatabase hands back: a freshly constructed connection
attempt (identified by its creation index) or the stored couch handle. -/
inductive ConnectResult where
  | newAttempt (id : Nat)
  | existing
deriving DecidableEq

/-- Translated from AliasResolverFactory.connectDatabase (lines 380-390): when
the database_connected flag is not set, construct a new connection attempt and
return it; when the flag is set, return the stored handle. The flag becomes true
only when the success callback of some attempt fires. -/
def connectDatabase (st : FactoryConn) : FactoryConn × ConnectResult :=
  if st.database_connected = false then
    ({ database_connected := st.database_connected, attempts := st.attempts + 1 },
     .newAttempt st.attempts)
  else (st, .existing)

/-- Translated from AliasResolverFactory._cb_connectDatabase (lines 377-378). -/
def cb_connectDatabase (st : FactoryConn) : FactoryConn :=
  { st with database_connected := true }

/-- Factory connection state right after construction (line 345). -/
def initConn : FactoryConn := { database_connected := false, attempts := 0 }

/-- A factory whose backend is not connected. -/
def F0 : AliasResolverFactory :=
  { database_connected := false, couch := { queryByEmailOrAlias := fun _ => none } }

/-- A connected factory whose backend maps isis to isis at leap.se and holds no
other key. -/
def F1 : AliasResolverFactory :=
  { database_connected := true,
    couch := { queryByEmailOrAlias := fun k => if k = "isis" then some "isis@leap.se" else none } }

/-- Helper: the second component produced by a two element split is never the
empty string, because it is built from a non empty character list. -/
theorem pySplit_pair_ne_empty (l v a : String) (h : pySplitNone1 l = [v, a]) : a ≠ "" := by
  unfold pySplitNone1 at h
  split at h
  · simp at h
  · split at h
    · simp at h
    · simp only [List.cons.injEq, and_true] at h
      obtain ⟨-, ha⟩ := h
      subst ha
      intro hcon
      exact List.noConfusion (congrArg String.data hcon)

/-- Helper: on an int argument the registry lookup never raises KeyError. -/
theorem get_pyInt_not_keyErr (n : Int) (k : String) :
    StatusCodes.get (.pyInt n) ≠ GetOut.keyErr k := by
  simp only [StatusCodes.get]
  by_cases h : n = 0
  · rw [if_pos h]; simp
  · rw [if_neg h]
    rcases hf : StatusCodes.SMTPCodes.find? fun q => q.1 == toString n && q.1 != "500" with _ | q <;>
      rw [hf] <;> simp

/-- C1: the claim says every accepted request line is answered by exactly one
response line, internal faults being converted to a FAIL 500 reply at the
session boundary. The code violates this: a well formed put request makes
do_put evaluate the undefined attribute do_query, the AttributeError is
captured by the inlineCallbacks deferred that nobody observes, and no response
line is ever written, for every factory state. -/
theorem c1_put_unanswered : ∀ (f : AliasResolverFactory),
    handleLine f "put isis isis@leap.se" =
      { lines := [], gets := [], puts := [],
        lost := [PyExc.attributeError "do_query"], raised := none } :=
  fun _ => rfl

/-- C2: the claim says delete deterministically replies BAD 500 and never
raises an unhandled fault. The code violates this: for every key, do_delete
writes nothing and raises NotImplemented out of the handler. -/
theorem c2_delete_raises : ∀ (f : AliasResolverFactory) (key : Option String),
    do_delete f key =
      { lines := [], gets := [], puts := [], lost := [],
        raised := some PyExc.notImplemented } :=
  fun _ _ => rfl

/-- C3 counterexample: the claim says an unknown numeric code returns the NOKEY
text, never an empty message, and that every known numeric code returns its
canonical message. The code returns the pair (None, empty string) both for the
unknown code 999 and for the known code 500, and the NOKEY text is not empty. -/
theorem c3_get_counterexample :
    StatusCodes.get (.pyInt 999) = .pair none "" ∧
    StatusCodes.get (.pyInt 500) = .pair none "" ∧
    StatusCodes.NOKEY ≠ "" := by
  refine ⟨rfl, rfl, ?_⟩
  decide

/-- C3 amended: canonical names return their defined pair; an unrecognized non
empty name returns the pair (500, FAIL text); a non zero numeric code known to
the table and different from 500 returns its canonical message; 500 itself and
every unknown non zero numeric code return no numeric code and an EMPTY
message (the NOKEY text is only logged, never returned). -/
theorem c3_get_amended :
    (∀ p, p ∈ StatusCodes.SMTPStrings →
      StatusCodes.get (.pyStr p.1) = .pair (some p.2) (StatusCodes.classAttr p.1)) ∧
    (∀ s : String, s ≠ "" →
      (StatusCodes.SMTPStrings.find? fun q => q.1 == pyUpper s) = none →
      StatusCodes.get (.pyStr s) = .pair (some 500) StatusCodes.FAIL) ∧
    (∀ n : Int, n ≠ 0 →
      (StatusCodes.SMTPCodes.find? fun q => q.1 == toString n && q.1 != "500") = none →
      StatusCodes.get (.pyInt n) = .pair none "") ∧
    (∀ (n : Int) (q : String × String), n ≠ 0 →
      (StatusCodes.SMTPCodes.find? fun r => r.1 == toString n && r.1 != "500") = some q →
      StatusCodes.get (.pyInt n) = .pair (some n) q.2) := by
  refine ⟨?_, ?_, ?_, ?_⟩
  · intro p hp
    simp only [StatusCodes.SMTPStrings, List.mem_cons, List.not_mem_nil, or_false] at hp
    rcases hp with rfl | rfl | rfl | rfl | rfl | rfl | rfl <;> decide
  · intro s hs hfind
    simp only [StatusCodes.get]
    rw [if_neg hs, hfind]
    rfl
  · intro n hn hfind
    simp only [StatusCodes.get]
    rw [if_neg hn, hfind]
  · intro n q hn hfind
    simp only [StatusCodes.get]
    rw [if_neg hn, hfind]

/-- C3 witness: the amended statement applied at the name WAT, the codes 999
and 200, and the name OK. -/
theorem c3_get_amended_witness :
    StatusCodes.get (.pyStr "WAT") = .pair (some 500) StatusCodes.FAIL ∧
    StatusCodes.get (.pyInt 999) = .pair none "" ∧
    StatusCodes.get (.pyInt 200) = .pair (some 200) StatusCodes.OK ∧
    StatusCodes.get (.pyStr "OK") = .pair (some 200) (StatusCodes.classAttr "OK") :=
  ⟨c3_get_amended.2.1 "WAT" (by decide) (by decide),
   c3_get_amended.2.2.1 999 (by decide) (by decide),
   c3_get_amended.2.2.2 200 ("200", StatusCodes.OK) (by decide) (by decide),
   c3_get_amended.1 ("OK", 200) (by decide)⟩

/-- C4: the claim says a get issued while disconnected is mapped by the session
to a RETRY 400 reply, never an unhandled fault. The factory half holds: when
connected, get delegates to the backend query, and when disconnected it raises
DatabaseNotConnected. But the session half fails: the failure continuation
passes a message to sendCode, whose tuple augmented assignment raises
TypeError before sendLine, the error is absorbed by the log errback, and no
400 line is ever written. -/
theorem c4_disconnected_no_reply :
    AliasResolverFactory.get F1 "isis" = Except.ok (some "isis@leap.se") ∧
    AliasResolverFactory.get F0 "isis" =
      Except.error (PyExc.databaseNotConnected "Must be connected to a database.") ∧
    do_get F0 (some "isis") =
      { lines := [], gets := ["isis"], puts := [],
        lost := [PyExc.typeError "can only concatenate tuple (not \x22str\x22) to tuple"],
        raised := none } :=
  ⟨rfl, rfl, rfl⟩

/-- C5: the claim says a put whose key already has a stored value replies DENY
553 and leaves storage unchanged. Storage is indeed untouched (no factory put
call), but no DENY line is written either: the existence check calls the
undefined do_query and the handler dies unanswered. -/
theorem c5_put_existing_unanswered :
    F1.couch.queryByEmailOrAlias "isis" = some "isis@leap.se" ∧
    do_put F1 (some "isis x@y") =
      { lines := [], gets := [], puts := [],
        lost := [PyExc.attributeError "do_query"], raised := none } :=
  ⟨rfl, rfl⟩

/-- C6: the claim says a put on an absent key performs the insert, replies OK
200, and a following get returns the stored value. The code cannot do any of
this: the handler dies on the undefined do_query before the existence check,
writing nothing and inserting nothing, and factory put unconditionally raises
NotImplemented, so no insert can ever be issued. -/
theorem c6_put_insert_never_happens :
    F1.couch.queryByEmailOrAlias "drebs" = none ∧
    do_put F1 (some "drebs drebs@leap.se") =
      { lines := [], gets := [], puts := [],
        lost := [PyExc.attributeError "do_query"], raised := none } ∧
    (∀ (f : AliasResolverFactory) (k v : String),
      AliasResolverFactory.put f k v = Except.error PyExc.notImplemented) :=
  ⟨rfl, rfl, fun _ _ _ => rfl⟩

/-- C7: a get request with a missing key is answered immediately by the bare
500 line with no factory call, and a framed get request carrying an argument
always carries a non empty key and issues exactly one factory query for it. -/
theorem c7_get_guard : ∀ (f : AliasResolverFactory),
    handleLine f "get" =
      { lines := ["500 "], gets := [], puts := [], lost := [], raised := none } ∧
    (∀ l v a, pySplitNone1 l = [v, a] → v = "get" →
      a ≠ "" ∧ (handleLine f l).gets = [a]) := by
  intro f
  constructor
  · rfl
  · intro l v a h hv
    subst hv
    refine ⟨pySplit_pair_ne_empty l "get" a h, ?_⟩
    unfold handleLine
    rw [h]
    show (do_get f (some a)).gets = [a]
    simp only [do_get]
    cases hb : AliasResolverFactory.get f a <;> rfl

/-- C7 witness: the guard applied to the line get with no argument and to the
line get isis. -/
theorem c7_get_guard_witness :
    handleLine F0 "get" =
      { lines := ["500 "], gets := [], puts := [], lost := [], raised := none } ∧
    ("isis" ≠ "" ∧ (handleLine F0 "get isis").gets = ["isis"]) :=
  ⟨(c7_get_guard F0).1, (c7_get_guard F0).2 "get isis" "get" "isis" rfl rfl⟩

/-- C8 counterexample: the claim says an argument of more than two whitespace
separated tokens replies BAD 500. On three tokens the code splits at most
once, accepts the pair, and then writes no line at all. -/
theorem c8_put_counterexample :
    (do_put F1 (some "a b c")).lines = [] ∧
    ([] : List String) ≠ ["500 "] := by
  refine ⟨rfl, ?_⟩
  decide

/-- C8 amended: the put argument must contain at least two whitespace separated
tokens. A missing or single token argument replies BAD 500 without touching
the backend; an argument of two or more tokens is split only once, the first
token becoming the key and the whole remainder the value, and is NOT rejected
with BAD 500 (in this code it then dies on the undefined do_query, unanswered). -/
theorem c8_put_amended : ∀ (f : AliasResolverFactory) (s : String),
    do_put f none =
      { lines := ["500 "], gets := [], puts := [], lost := [], raised := none } ∧
    (∀ k v, pySplitNone1 s = [k, v] →
      do_put f (some s) =
        { lines := [], gets := [], puts := [],
          lost := [PyExc.attributeError "do_query"], raised := none }) ∧
    (pySplitNone1 s = [] ∨ (∃ t, pySplitNone1 s = [t]) →
      do_put f (some s) =
        { lines := ["500 "], gets := [], puts := [], lost := [], raised := none }) := by
  intro f s
  refine ⟨rfl, ?_, ?_⟩
  · intro k v h
    simp only [do_put]
    rw [h]
  · intro h
    rcases h with h | ⟨t, h⟩ <;> (simp only [do_put]; rw [h]) <;> rfl

/-- C8 witness: the amended statement applied to a three token argument and to
a single token argument. -/
theorem c8_put_amended_witness :
    do_put F1 (some "a b c") =
      { lines := [], gets := [], puts := [],
        lost := [PyExc.attributeError "do_query"], raised := none } ∧
    do_put F1 (some "onlyonetoken") =
      { lines := ["500 "], gets := [], puts := [], lost := [], raised := none } :=
  ⟨(c8_put_amended F1 "a b c").2.1 "a" "b c" (by decide),
   (c8_put_amended F1 "onlyonetoken").2.2 (Or.inr ⟨"onlyonetoken", by decide⟩)⟩

/-- C9: the claim says a connect call made while an attempt is already in
flight returns that in flight attempt instead of starting a second one. The
code checks only the boolean database_connected flag: while the first attempt
is still pending the flag is false, so a second call constructs a second,
distinct, simultaneous attempt. -/
theorem c9_second_attempt_started :
    (connectDatabase initConn).2 = ConnectResult.newAttempt 0 ∧
    (connectDatabase (connectDatabase initConn).1).2 = ConnectResult.newAttempt 1 ∧
    (connectDatabase (connectDatabase initConn).1).1.attempts = 2 ∧
    ConnectResult.newAttempt 1 ≠ ConnectResult.newAttempt 0 := by
  refine ⟨rfl, rfl, rfl, ?_⟩
  decide

/-- C10: for every integer code, sendCode without a message writes exactly one
line, the zero padded code followed by a space and empty text; the registry
pair from StatusCodes.get is computed and discarded, never included in the
line; and when a caller does pass a message no line is written at all, so the
text portion of a written line is non empty only when the caller passes a
message itself. -/
theorem c10_sendCode_line : ∀ (n : Int) (m : Option String),
    (sendCode (.pyInt n) m).registry = some (StatusCodes.get (.pyInt n)) ∧
    (sendCode (.pyInt n) m).lines =
      (match m with | none => [fmt3d n ++ " "] | some _ => ([] : List String)) := by
  intro n m
  unfold sendCode
  cases hg : StatusCodes.get (.pyInt n) with
  | keyErr k => exact absurd hg (get_pyInt_not_keyErr n k)
  | retNone => cases m <;> simp
  | pair c s => cases m <;> simp
